import Mathlib

/-!
Shallow embedding of the order / cart / payment / catalog logic of the
shopping-mall repository (actions/order.ts, actions/cart.ts,
actions/payment.ts, actions/admin/products.ts, lib/admin/is-admin.ts,
lib/home/get-*.ts, app/products/page.tsx), together with proofs of the
frozen specification claims.

The remote data store is modelled as a plain record store (lists of rows);
each Supabase call site becomes a pure list operation, and call sites that
can fail at the network / database layer take their outcome from an
explicit environment record.  The `decrement_stock` RPC invoked by
`createOrder` is defined nowhere in the repository's migrations, so that
call always returns an error and the code always takes its direct
fetch-and-update fallback; the embedding models the fallback only.
-/

namespace Shop

/-- Product row, following `types/product.ts` and the `products` table. -/
structure Product where
  id : Nat
  name : String
  description : Option String
  price : Int
  stock_quantity : Int
  is_active : Bool
  status : String
  category : Option String
  image_url : Option String
  image_urls : Option (List String)
  is_promotional : Bool
  options : Option String
  view_count : Int
  created_at : Nat
  deriving Repr, DecidableEq

/-- Cart row, following `types/cart.ts` and the `cart_items` table.
`options` is the canonical JSON serialization of the option set
(`null` for no options), as produced by the JSON.stringify call in
`actions/cart.ts`. -/
structure CartItem where
  id : Nat
  clerk_id : String
  product_id : Nat
  quantity : Int
  options : Option String
  deriving Repr, DecidableEq

/-- Order header row, following `types/order.ts` and the `orders` table.
`payment_status` starts at the schema default value "pending". -/
structure Order where
  id : Nat
  clerk_id : String
  total_amount : Int
  status : String
  shipping_address : String
  order_note : Option String
  payment_id : Option String
  payment_method : Option String
  payment_status : String
  payment_data : Option String
  deriving Repr, DecidableEq

/-- Order line row, following `types/order.ts` and the `order_items` table. -/
structure OrderItem where
  order_id : Nat
  product_id : Nat
  product_name : String
  quantity : Int
  price : Int
  options : Option String
  deriving Repr, DecidableEq

/-- The record store: the four collections the specified logic touches. -/
structure DB where
  products : List Product
  cart_items : List CartItem
  orders : List Order
  order_items : List OrderItem
  deriving Repr, DecidableEq

/-- Shipping fee rule from `actions/order.ts` (`calculateShippingFee`):
free shipping from 50000 on, otherwise a flat 3000. -/
def calculateShippingFee (totalAmount : Int) : Int :=
  if totalAmount ≥ 50000 then 0 else 3000

/-- `.from("products") ... .eq("id", pid).single()`: the product row with
the given id, if any. -/
def findProduct (db : DB) (pid : Nat) : Option Product :=
  db.products.find? (fun p => decide (p.id = pid))

/-- Error taxonomy of `createOrder` (one constructor per throw site in
`actions/order.ts`). -/
inductive OrderError where
  | notLoggedIn
  | cartNotFound
  | cartMismatch
  | productMissing (productId : Nat)
  | productUnavailable (name : String)
  | insufficientStock (name : String)
  | invalidAmount
  | orderPersistFailed
  | lineItemPersistFailed
  | stockFetchFailed (productId : Nat)
  | insufficientStockRecheck (name : String)
  | stockUpdateFailed (productId : Nat)
  deriving Repr, DecidableEq

/-- Outcomes of the external calls `createOrder` performs; all `false`
means every call succeeds at the network layer. -/
structure OrderEnv where
  cartQueryFails : Bool
  orderInsertFails : Bool
  itemsInsertFails : Bool
  stockFetchFails : Nat → Bool
  stockUpdateFails : Nat → Bool
  cartDeleteFails : Bool

/-- The environment in which no external call fails. -/
def happyOrderEnv : OrderEnv :=
  ⟨false, false, false, fun _ => false, fun _ => false, false⟩

/-- Argument record of `createOrder` (`CreateOrderData` in
`types/order.ts`); the shipping address is carried opaquely. -/
structure CreateOrderData where
  cartItemIds : List Nat
  shippingAddress : String
  orderNote : Option String
  deriving Repr, DecidableEq

/-- Line-item data accumulated during validation (the `orderItems` array
built in step 3 of `createOrder`). -/
structure OrderItemDraft where
  productId : Nat
  productName : String
  quantity : Int
  price : Int
  options : Option String
  deriving Repr, DecidableEq

/-- Step 2 of `createOrder`: `.from("cart_items") ... .eq("clerk_id",
userId).in("id", cartItemIds)`. -/
def fetchCartItems (db : DB) (userId : String) (ids : List Nat) : List CartItem :=
  db.cart_items.filter (fun c => decide (c.clerk_id = userId ∧ c.id ∈ ids))

/-- Step 3 of `createOrder`: per-entry validation loop.  Resolves each
entry's product, checks active status and stock, and accumulates the
line-item snapshots and the subtotal. -/
def validateCartItems (db : DB) : List CartItem → Except OrderError (List OrderItemDraft × Int)
  | [] => .ok ([], 0)
  | c :: rest =>
    match findProduct db c.product_id with
    | none => .error (.productMissing c.product_id)
    | some p =>
      if ¬ p.is_active ∨ p.status = "hidden" then
        .error (.productUnavailable p.name)
      else if c.quantity > p.stock_quantity then
        .error (.insufficientStock p.name)
      else
        match validateCartItems db rest with
        | .error e => .error e
        | .ok (drafts, subtotal) =>
          .ok (⟨p.id, p.name, c.quantity, p.price, c.options⟩ :: drafts,
            p.price * c.quantity + subtotal)

/-- One iteration of step 6-3 of `createOrder` for one line item: the
`decrement_stock` RPC does not exist in this repository's schema, so the
code always falls through to fetch current stock, re-check it, and write
the decremented value. -/
def decrementStep (env : OrderEnv) (products : List Product) (item : OrderItemDraft) :
    Except OrderError (List Product) :=
  if env.stockFetchFails item.productId then
    .error (.stockFetchFailed item.productId)
  else
    match products.find? (fun p => decide (p.id = item.productId)) with
    | none => .error (.stockFetchFailed item.productId)
    | some p =>
      let newStock := p.stock_quantity - item.quantity
      if newStock < 0 then
        .error (.insufficientStockRecheck item.productName)
      else if env.stockUpdateFails item.productId then
        .error (.stockUpdateFailed item.productId)
      else
        .ok (products.map (fun q =>
          if q.id = item.productId then { q with stock_quantity := newStock } else q))

/-- The per-line stock-decrement loop of step 6-3.  On the first failing
line it stops and reports the products list as of that moment: decrements
applied by earlier iterations are kept. -/
def decrementLoop (env : OrderEnv) (products : List Product) :
    List OrderItemDraft → Option OrderError × List Product
  | [] => (none, products)
  | item :: rest =>
    match decrementStep env products item with
    | .error e => (some e, products)
    | .ok products' => decrementLoop env products' rest

/-- Steps 5 to 8 of `createOrder` (order insert, line-item insert, stock
decrement with compensating deletes, cart cleanup).  `newOrderId` is the
id the data store assigns to the order header row. -/
def createOrderWrite (env : OrderEnv) (db : DB) (userId : String) (newOrderId : Nat)
    (data : CreateOrderData) (orderItems : List OrderItemDraft) (finalTotalAmount : Int) :
    Except OrderError Nat × DB :=
  if env.orderInsertFails then
    (.error .orderPersistFailed, db)
  else
    let order : Order :=
      { id := newOrderId, clerk_id := userId, total_amount := finalTotalAmount,
        status := "pending", shipping_address := data.shippingAddress,
        order_note := data.orderNote, payment_id := none, payment_method := none,
        payment_status := "pending", payment_data := none }
    let db1 : DB := { db with orders := db.orders ++ [order] }
    if env.itemsInsertFails then
      (.error .lineItemPersistFailed,
        { db1 with orders := db1.orders.filter (fun o => decide (o.id ≠ newOrderId)) })
    else
      let newItems : List OrderItem := orderItems.map (fun it =>
        ⟨newOrderId, it.productId, it.productName, it.quantity, it.price, it.options⟩)
      let db2 : DB := { db1 with order_items := db1.order_items ++ newItems }
      match decrementLoop env db2.products orderItems with
      | (some e, products') =>
        (.error e,
          { db2 with
              products := products',
              order_items := db2.order_items.filter (fun oi => decide (oi.order_id ≠ newOrderId)),
              orders := db2.orders.filter (fun o => decide (o.id ≠ newOrderId)) })
      | (none, products') =>
        let db3 : DB := { db2 with products := products' }
        if env.cartDeleteFails then
          (.ok newOrderId, db3)
        else
          (.ok newOrderId,
            { db3 with cart_items := db3.cart_items.filter (fun c =>
                decide (¬ (c.clerk_id = userId ∧ c.id ∈ data.cartItemIds))) })

/-- `createOrder` from `actions/order.ts`: validates the requested cart
entries, computes the totals, and performs the write sequence.  Returns
the result together with the final state of the store. -/
def createOrder (env : OrderEnv) (db : DB) (authUserId : Option String) (newOrderId : Nat)
    (data : CreateOrderData) : Except OrderError Nat × DB :=
  match authUserId with
  | none => (.error .notLoggedIn, db)
  | some userId =>
    if env.cartQueryFails then
      (.error .cartNotFound, db)
    else
      let cartItems := fetchCartItems db userId data.cartItemIds
      if cartItems.length = 0 then
        (.error .cartNotFound, db)
      else if cartItems.length ≠ data.cartItemIds.length then
        (.error .cartMismatch, db)
      else
        match validateCartItems db cartItems with
        | .error e => (.error e, db)
        | .ok (orderItems, totalAmount) =>
          let shippingFee := calculateShippingFee totalAmount
          let finalTotalAmount := totalAmount + shippingFee
          if finalTotalAmount ≤ 0 then
            (.error .invalidAmount, db)
          else
            createOrderWrite env db userId newOrderId data orderItems finalTotalAmount

/-- Error taxonomy of `addToCart` in `actions/cart.ts`. -/
inductive CartError where
  | notLoggedIn
  | productNotFound
  | productUnavailable
  | outOfStock
  | cartLookupFailed
  | insufficientStock
  | updateFailed
  | insertFailed
  deriving Repr, DecidableEq

/-- Outcomes of the external calls `addToCart` performs. -/
structure CartEnv where
  lookupFails : Bool
  updateFails : Bool
  insertFails : Bool
  deriving Repr, DecidableEq

/-- The environment in which no cart call fails. -/
def happyCartEnv : CartEnv := ⟨false, false, false⟩

/-- Argument record of `addToCart` (`AddToCartData` in `types/cart.ts`);
`options` is already the canonical JSON serialization (`null` stays
`none`). -/
structure AddToCartData where
  productId : Nat
  quantity : Int
  options : Option String
  deriving Repr, DecidableEq

/-- `addToCart` from `actions/cart.ts`: validates the product, looks up an
existing entry keyed by (owner, product, serialized options), and either
merges quantities (re-checking combined stock) or inserts a new entry
(checking the requested quantity alone).  `newCartItemId` is the id the
data store assigns when a new row is inserted. -/
def addToCart (env : CartEnv) (db : DB) (authUserId : Option String) (newCartItemId : Nat)
    (data : AddToCartData) : Except CartError CartItem × DB :=
  match authUserId with
  | none => (.error .notLoggedIn, db)
  | some userId =>
    match findProduct db data.productId with
    | none => (.error .productNotFound, db)
    | some product =>
      if ¬ product.is_active ∨ product.status = "hidden" then
        (.error .productUnavailable, db)
      else if product.stock_quantity = 0 then
        (.error .outOfStock, db)
      else if env.lookupFails then
        (.error .cartLookupFailed, db)
      else
        match db.cart_items.find? (fun c =>
          decide (c.clerk_id = userId ∧ c.product_id = data.productId ∧
            c.options = data.options)) with
        | some existingItem =>
          let newQuantity := existingItem.quantity + data.quantity
          if newQuantity > product.stock_quantity then
            (.error .insufficientStock, db)
          else if env.updateFails then
            (.error .updateFailed, db)
          else
            (.ok { existingItem with quantity := newQuantity },
              { db with cart_items := db.cart_items.map (fun c =>
                  if c.id = existingItem.id then { c with quantity := newQuantity } else c) })
        | none =>
          if data.quantity > product.stock_quantity then
            (.error .insufficientStock, db)
          else if env.insertFails then
            (.error .insertFailed, db)
          else
            let newItem : CartItem :=
              ⟨newCartItemId, userId, data.productId, data.quantity, data.options⟩
            (.ok newItem, { db with cart_items := db.cart_items ++ [newItem] })

/-- External-call outcomes for `getCartCount`. -/
structure CartCountEnv where
  authUserId : Option String
  countFails : Bool
  deriving Repr, DecidableEq

/-- `getCartCount` from `actions/cart.ts`: 0 for unauthenticated callers,
0 when the count query errors, otherwise the owner's entry count. -/
def getCartCount (env : CartCountEnv) (db : DB) : Nat :=
  match env.authUserId with
  | none => 0
  | some userId =>
    if env.countFails then 0
    else (db.cart_items.filter (fun c => decide (c.clerk_id = userId))).length

/-- Error taxonomy of `updateOrderPayment` in `actions/payment.ts`. -/
inductive PaymentError where
  | notLoggedIn
  | orderNotFound
  | amountMismatch
  | alreadyPaid
  | updateFailed
  deriving Repr, DecidableEq

/-- Settlement payload handed to `updateOrderPayment` (the value returned
by `confirmPayment`); `paymentDataTotalAmount` is the
`paymentData.totalAmount` field the amount check reads, and `paymentData`
carries the rest of the provider payload opaquely. -/
structure PaymentInfo where
  paymentKey : String
  status : String
  method : String
  paymentDataTotalAmount : Int
  paymentData : String
  deriving Repr, DecidableEq

/-- External-call outcomes for `updateOrderPayment`. -/
structure PaymentEnv where
  updateFails : Bool
  deriving Repr, DecidableEq

/-- The field update `updateOrderPayment` writes onto the order row. -/
def applyPayment (paymentInfo : PaymentInfo) (o : Order) : Order :=
  { o with
      payment_id := some paymentInfo.paymentKey,
      payment_method := some paymentInfo.method,
      payment_status := "completed",
      payment_data := some paymentInfo.paymentData,
      status := "confirmed" }

/-- `updateOrderPayment` from `actions/payment.ts`: reloads the order
scoped by id and owner, verifies the settled amount within a one-unit
tolerance, rejects double settlement, and otherwise writes the payment
fields and transitions the order to confirmed. -/
def updateOrderPayment (env : PaymentEnv) (db : DB) (authUserId : Option String)
    (orderId : Nat) (paymentInfo : PaymentInfo) : Except PaymentError Unit × DB :=
  match authUserId with
  | none => (.error .notLoggedIn, db)
  | some userId =>
    match db.orders.find? (fun o => decide (o.id = orderId ∧ o.clerk_id = userId)) with
    | none => (.error .orderNotFound, db)
    | some order =>
      if |paymentInfo.paymentDataTotalAmount - order.total_amount| > 1 then
        (.error .amountMismatch, db)
      else if order.payment_status = "completed" then
        (.error .alreadyPaid, db)
      else if env.updateFails then
        (.error .updateFailed, db)
      else
        (.ok (),
          { db with orders := db.orders.map (fun o =>
              if o.id = orderId ∧ o.clerk_id = userId then applyPayment paymentInfo o else o) })

/-- `getAdminUserIds` from `lib/admin/is-admin.ts`: parse the
comma-separated `ADMIN_USER_IDS` environment variable; an unset or empty
(falsy) variable yields the empty list. -/
def getAdminUserIds (adminUserIdsString : Option String) : List String :=
  match adminUserIdsString with
  | none => []
  | some s =>
    if s = "" then []
    else ((s.splitOn ",").map (fun id => id.trim)).filter (fun id => decide (0 < id.length))

/-- Ambient inputs of `isAdmin`: the allow-list environment variable, and
the identity lookup (which may throw). -/
structure AdminEnv where
  adminUserIdsString : Option String
  authThrows : Bool
  authUserId : Option String
  dbFails : Bool
  deriving Repr, DecidableEq

/-- `isAdmin` from `lib/admin/is-admin.ts`: false when the identity
lookup throws, when the caller is unauthenticated, or when the allow-list
is empty; otherwise allow-list membership. -/
def isAdmin (env : AdminEnv) : Bool :=
  if env.authThrows then false
  else
    match env.authUserId with
    | none => false
    | some userId =>
      let adminUserIds := getAdminUserIds env.adminUserIdsString
      if adminUserIds.length = 0 then false
      else adminUserIds.contains userId

/-- Error taxonomy of the admin product actions. -/
inductive AdminError where
  | unauthorized
  | dbError
  | notFound
  deriving Repr, DecidableEq

/-- Argument record of `createProduct` (`CreateProductData`). -/
structure CreateProductData where
  name : String
  description : Option String
  price : Int
  category : Option String
  stock_quantity : Int
  image_url : Option String
  image_urls : Option (List String)
  is_promotional : Option Bool
  options : Option String
  status : Option String
  deriving Repr, DecidableEq

/-- `createProduct` from `actions/admin/products.ts`: admin gate, then a
single insert that normalizes the legacy single-image field into the list
field and derives `is_active` from the requested status. -/
def createProduct (env : AdminEnv) (db : DB) (newProductId : Nat) (now : Nat)
    (data : CreateProductData) : Except AdminError Product × DB :=
  if ¬ isAdmin env then (.error .unauthorized, db)
  else
    let image_urls : List String :=
      match data.image_urls with
      | some us => us
      | none =>
        match data.image_url with
        | some u => if u = "" then [] else [u]
        | none => []
    if env.dbFails then (.error .dbError, db)
    else
      let product : Product :=
        { id := newProductId, name := data.name, description := data.description,
          price := data.price, category := data.category,
          stock_quantity := data.stock_quantity, image_url := data.image_url,
          image_urls := if 0 < image_urls.length then some image_urls else none,
          is_promotional := data.is_promotional.getD false, options := data.options,
          status := data.status.getD "active",
          is_active := decide (data.status ≠ some "hidden"), view_count := 0,
          created_at := now }
      (.ok product, { db with products := db.products ++ [product] })

/-- Argument record of `updateProduct` (`UpdateProductData`): `id` plus a
partial field set; an outer `none` means the field is absent from the
update, an inner `none` models an explicit `null`. -/
structure UpdateProductData where
  id : Nat
  name : Option String
  description : Option (Option String)
  price : Option Int
  category : Option (Option String)
  stock_quantity : Option Int
  image_url : Option (Option String)
  image_urls : Option (Option (List String))
  is_promotional : Option Bool
  options : Option (Option String)
  status : Option String
  deriving Repr, DecidableEq

/-- The image-field normalization block of `updateProduct`: when either
image field is present, recompute `image_urls` (empty becomes `null`) and
null out a dangling `image_url`. -/
def normalizeImageFields (d : UpdateProductData) : UpdateProductData :=
  if d.image_urls.isSome ∨ d.image_url.isSome then
    let image_urls : List String :=
      match d.image_urls with
      | some (some us) => us
      | _ =>
        match d.image_url with
        | some (some u) => if u = "" then [] else [u]
        | _ => []
    let d' := { d with image_urls := some (if 0 < image_urls.length then some image_urls else none) }
    if ((match d'.image_url with | some (some u) => decide (u ≠ "") | _ => false) &&
        decide (d'.image_urls = some none)) = true then
      { d' with image_url := some none }
    else d'
  else d

/-- Field-wise application of an update payload to a product row; when
`status` is present, `is_active` is rewritten alongside it. -/
def applyProductUpdate (d : UpdateProductData) (p : Product) : Product :=
  { p with
      name := d.name.getD p.name,
      description := (d.description.map id).getD p.description,
      price := d.price.getD p.price,
      category := (d.category.map id).getD p.category,
      stock_quantity := d.stock_quantity.getD p.stock_quantity,
      image_url := (d.image_url.map id).getD p.image_url,
      image_urls := (d.image_urls.map id).getD p.image_urls,
      is_promotional := d.is_promotional.getD p.is_promotional,
      options := (d.options.map id).getD p.options,
      status := d.status.getD p.status,
      is_active := match d.status with
        | some st => decide (st ≠ "hidden")
        | none => p.is_active }

/-- `updateProduct` from `actions/admin/products.ts`: admin gate, image
normalization, then a single update scoped by id. -/
def updateProduct (env : AdminEnv) (db : DB) (data : UpdateProductData) :
    Except AdminError Product × DB :=
  if ¬ isAdmin env then (.error .unauthorized, db)
  else if env.dbFails then (.error .dbError, db)
  else
    let d := normalizeImageFields data
    match findProduct db data.id with
    | none => (.error .notFound, db)
    | some p =>
      (.ok (applyProductUpdate d p),
        { db with products := db.products.map (fun q =>
            if q.id = data.id then applyProductUpdate d q else q) })

/-- `deleteProduct` from `actions/admin/products.ts`: admin gate, then
either a hard row delete or a soft delete setting status hidden and
`is_active` false. -/
def deleteProduct (env : AdminEnv) (db : DB) (id : Nat) (hardDelete : Bool) :
    Except AdminError Unit × DB :=
  if ¬ isAdmin env then (.error .unauthorized, db)
  else if env.dbFails then (.error .dbError, db)
  else if hardDelete then
    (.ok (), { db with products := db.products.filter (fun p => decide (p.id ≠ id)) })
  else
    (.ok (), { db with products := db.products.map (fun p =>
        if p.id = id then { p with status := "hidden", is_active := false } else p) })

/-- Case-insensitive substring test, modelling the ILIKE patterns the
admin search and the collaboration reader issue. -/
def containsCI (s pat : String) : Bool :=
  decide (List.IsInfix pat.toLower.data s.toLower.data)

/-- Deterministic insertion into a list sorted by the boolean relation. -/
def insertLe {α : Type} (le : α → α → Bool) (a : α) : List α → List α
  | [] => [a]
  | b :: l => if le a b then a :: b :: l else b :: insertLe le a l

/-- Deterministic insertion sort by the boolean relation, modelling the
ORDER BY clauses and in-memory sorts the readers perform. -/
def sortLe {α : Type} (le : α → α → Bool) : List α → List α
  | [] => []
  | a :: l => insertLe le a (sortLe le l)

/-- Argument record of `getAdminProducts` (`GetAdminProductsParams`). -/
structure GetAdminProductsParams where
  search : Option String
  status : Option String
  category : Option String
  sortByField : Option String
  sortOrder : Option String
  limit : Option Nat
  offset : Option Nat
  deriving Repr, DecidableEq

/-- The sort relation `getAdminProducts` requests from the data store. -/
def adminSortLe (sortByField : String) (ascending : Bool) (a b : Product) : Bool :=
  if sortByField = "name" then
    if ascending then !(decide (b.name < a.name)) else !(decide (a.name < b.name))
  else if sortByField = "price" then
    if ascending then decide (a.price ≤ b.price) else decide (b.price ≤ a.price)
  else if sortByField = "view_count" then
    if ascending then decide (a.view_count ≤ b.view_count) else decide (b.view_count ≤ a.view_count)
  else
    if ascending then decide (a.created_at ≤ b.created_at) else decide (b.created_at ≤ a.created_at)

/-- `getAdminProducts` from `actions/admin/products.ts`: admin gate, then
composable substring search, status and category filters, ordering and
offset pagination. -/
def getAdminProducts (env : AdminEnv) (db : DB) (params : GetAdminProductsParams) :
    Except AdminError (List Product) :=
  if ¬ isAdmin env then .error .unauthorized
  else if env.dbFails then .error .dbError
  else
    let afterSearch := match params.search with
      | some s =>
        if s = "" then db.products
        else db.products.filter (fun p =>
          containsCI p.name s || (match p.description with
            | some d => containsCI d s
            | none => false))
      | none => db.products
    let afterStatus := match params.status with
      | some st => afterSearch.filter (fun p => decide (p.status = st))
      | none => afterSearch
    let afterCategory := match params.category with
      | some c =>
        if c = "" then afterStatus
        else afterStatus.filter (fun p => decide (p.category = some c))
      | none => afterStatus
    let sortByField := params.sortByField.getD "created_at"
    let ascending := params.sortOrder.getD "desc" = "asc"
    let sorted := sortLe (adminSortLe sortByField ascending) afterCategory
    let limit := params.limit.getD 50
    let offset := params.offset.getD 0
    .ok ((sorted.drop offset).take limit)

/-- `getProductById` from `actions/admin/products.ts`: admin gate, then a
single-row lookup that maps a missing row to `null`. -/
def getProductById (env : AdminEnv) (db : DB) (id : Nat) :
    Except AdminError (Option Product) :=
  if ¬ isAdmin env then .error .unauthorized
  else if env.dbFails then .error .dbError
  else .ok (findProduct db id)

/-- Outcomes of the external calls the catalog read paths perform (table
probes and the data queries themselves). -/
structure ReadEnv where
  productsTableMissing : Bool
  orderItemsTableMissing : Bool
  productsQueryFails : Bool
  orderItemsQueryFails : Bool
  deriving Repr, DecidableEq

/-- The environment in which every catalog read call succeeds. -/
def happyReadEnv : ReadEnv := ⟨false, false, false, false⟩

/-- `getCategoryLabel` from `lib/categories.ts`: the fixed Korean label
map, falling back to the raw category, with a sentinel for `null`. -/
def getCategoryLabel (category : Option String) : String :=
  match category with
  | none => "기타"
  | some c =>
    let categoryMap : List (String × String) :=
      [("electronics", "전자제품"), ("clothing", "의류"), ("books", "도서"),
       ("food", "식품"), ("sports", "스포츠"), ("beauty", "뷰티"),
       ("home", "생활/가정"), ("collaboration", "디자인 콜라보"),
       ("woman", "여성"), ("man", "남성")]
    match categoryMap.lookup c with
    | some label => if label = "" then c else label
    | none => c

/-- `CategoryInfo` from `lib/categories.ts`. -/
structure CategoryInfo where
  category : String
  label : String
  count : Nat
  deriving Repr, DecidableEq

/-- Increment the tally of one key in an association list kept in first
occurrence order, modelling the plain-object tally the readers build. -/
def bumpCount (k : String) : List (String × Nat) → List (String × Nat)
  | [] => [(k, 1)]
  | (k', n) :: rest => if k' = k then (k', n + 1) :: rest else (k', n) :: bumpCount k rest

/-- Add to the tally of one key in an association list kept in first
occurrence order (sales-quantity aggregation of the popular reader). -/
def bumpCountBy (k : Nat) (q : Int) : List (Nat × Int) → List (Nat × Int)
  | [] => [(k, q)]
  | (k', n) :: rest => if k' = k then (k', n + q) :: rest else (k', n) :: bumpCountBy k q rest

/-- `getCategories` from `lib/home/get-categories.ts`: fetch the category
column of active products, tally client-side, sort by count descending;
any table or query failure degrades to the empty list. -/
def getCategories (env : ReadEnv) (db : DB) : List CategoryInfo :=
  if env.productsTableMissing then []
  else if env.productsQueryFails then []
  else
    let cats : List String := db.products.filterMap (fun p =>
      if p.is_active then
        match p.category with
        | some c => if c = "" then none else some c
        | none => none
      else none)
    let categoryCounts := cats.foldl (fun acc c => bumpCount c acc) []
    sortLe (fun a b => decide (b.count ≤ a.count))
      (categoryCounts.map (fun kc => ⟨kc.1, getCategoryLabel (some kc.1), kc.2⟩))

/-- `getPopularProducts` from `lib/home/get-popular-products.ts`: tally
sold quantity per product over at most 1000 order lines, take the top
eight product ids, fetch those products and re-sort them by the tallied
quantity; failures and an empty order-line table degrade to the empty
list. -/
def getPopularProducts (env : ReadEnv) (db : DB) : List Product :=
  if env.orderItemsTableMissing then []
  else if env.orderItemsQueryFails then []
  else
    let orderItems := db.order_items.take 1000
    if orderItems.length = 0 then []
    else
      let salesCount : List (Nat × Int) :=
        orderItems.foldl (fun acc it => bumpCountBy it.product_id it.quantity acc) []
      let popularProductIds : List Nat :=
        ((sortLe (fun a b => decide (b.2 ≤ a.2)) salesCount).take 8).map (fun kc => kc.1)
      if popularProductIds.length = 0 then []
      else if env.productsQueryFails then []
      else
        let products := db.products.filter (fun p =>
          p.is_active && popularProductIds.contains p.id)
        sortLe (fun a b =>
          decide ((salesCount.lookup b.id).getD 0 ≤ (salesCount.lookup a.id).getD 0)) products

/-- `getPromotionalProducts` from `lib/home/get-promotional-products.ts`:
active promotional products, newest first, at most eight. -/
def getPromotionalProducts (env : ReadEnv) (db : DB) : List Product :=
  if env.productsTableMissing then []
  else if env.productsQueryFails then []
  else
    (sortLe (fun a b => decide (b.created_at ≤ a.created_at))
      (db.products.filter (fun p => p.is_active && p.is_promotional))).take 8

/-- `getLatestProducts` from `lib/home/get-latest-products.ts`: active
products, newest first, at most twelve. -/
def getLatestProducts (env : ReadEnv) (db : DB) : List Product :=
  if env.productsTableMissing then []
  else if env.productsQueryFails then []
  else
    (sortLe (fun a b => decide (b.created_at ≤ a.created_at))
      (db.products.filter (fun p => p.is_active))).take 12

/-- The OR-chain of the collaboration reader: fixed category sentinel or
a case-insensitive keyword hit in name or description. -/
def collaborationMatch (p : Product) : Bool :=
  decide (p.category = some "collaboration") ||
  containsCI p.name "콜라보" || containsCI p.name "collaboration" || containsCI p.name "디자인" ||
  (match p.description with
   | some d => containsCI d "콜라보" || containsCI d "collaboration" || containsCI d "디자인"
   | none => false)

/-- `getCollaborationProducts` from
`lib/home/get-collaboration-products.ts`: active products matching the
collaboration OR-chain, newest first, at most six. -/
def getCollaborationProducts (env : ReadEnv) (db : DB) : List Product :=
  if env.productsTableMissing then []
  else if env.productsQueryFails then []
  else
    (sortLe (fun a b => decide (b.created_at ≤ a.created_at))
      (db.products.filter (fun p => p.is_active && collaborationMatch p))).take 6

/-- `getProducts` from `app/products/page.tsx`: active products with an
optional category filter, one of four sort orders, offset pagination, and
an exact total count; failures degrade to the empty page. -/
def getProducts (env : ReadEnv) (db : DB) (category : Option String) (sort : String)
    (page pageSize : Nat) : List Product × Nat :=
  if env.productsTableMissing then ([], 0)
  else if env.productsQueryFails then ([], 0)
  else
    let filtered := db.products.filter (fun p =>
      p.is_active &&
        (match category with
         | some c => if c = "" then true else decide (p.category = some c)
         | none => true))
    let sorted :=
      if sort = "price_asc" then sortLe (fun a b => decide (a.price ≤ b.price)) filtered
      else if sort = "price_desc" then sortLe (fun a b => decide (b.price ≤ a.price)) filtered
      else if sort = "name" then sortLe (fun a b => !(decide (b.name < a.name))) filtered
      else sortLe (fun a b => decide (b.created_at ≤ a.created_at)) filtered
    ((sorted.drop ((page - 1) * pageSize)).take pageSize, filtered.length)

/-- The product of the concrete order scenario: stock 5, price 20000. -/
def c4product : Product :=
  ⟨1, "테스트 상품", none, 20000, 5, true, "active", none, none, none, false, none, 0, 0⟩

/-- The cart entry of the concrete order scenario: quantity 2 of the
product. -/
def c4cart : CartItem := ⟨10, "user_1", 1, 2, none⟩

/-- Store for the concrete order scenario. -/
def c4db : DB := ⟨[c4product], [c4cart], [], []⟩

/-- Request of the concrete order scenario: order the one cart entry. -/
def c4data : CreateOrderData := ⟨[10], "서울시 강남구", none⟩

/-- First product of the partial-decrement scenario. -/
def c7p1 : Product :=
  ⟨1, "상품 A", none, 10000, 5, true, "active", none, none, none, false, none, 0, 0⟩

/-- Second product of the partial-decrement scenario; its stock update
will fail. -/
def c7p2 : Product :=
  ⟨2, "상품 B", none, 20000, 5, true, "active", none, none, none, false, none, 0, 0⟩

/-- Store of the partial-decrement scenario: two cart entries over the
two products. -/
def c7db : DB :=
  ⟨[c7p1, c7p2], [⟨30, "user_1", 1, 2, none⟩, ⟨31, "user_1", 2, 1, none⟩], [], []⟩

/-- Environment of the partial-decrement scenario: every call succeeds
except the stock update of product 2. -/
def c7env : OrderEnv :=
  ⟨false, false, false, fun _ => false, fun pid => decide (pid = 2), false⟩

/-- A cart entry owned by a different user, for the cart-mismatch
scenario. -/
def c3aCart : CartItem := ⟨10, "someone_else", 1, 1, none⟩

/-- Store for the cart-mismatch scenario. -/
def c3adb : DB := ⟨[], [c3aCart], [], []⟩

/-- A sold-out product (stock 0), for the insufficient-stock scenario. -/
def c3bProduct : Product :=
  ⟨1, "품절 상품", none, 10000, 0, true, "active", none, none, none, false, none, 0, 0⟩

/-- A cart entry requesting two units of the sold-out product. -/
def c3bCart : CartItem := ⟨11, "user_1", 1, 2, none⟩

/-- Store for the insufficient-stock scenario. -/
def c3bdb : DB := ⟨[c3bProduct], [c3bCart], [], []⟩

/-- An order freshly created by the order workflow, used by the concrete
payment scenario. -/
def c6order : Order :=
  ⟨5, "user_1", 43000, "pending", "서울시", none, none, none, "pending", none⟩

/-- Store holding the single freshly created order of the payment
scenario. -/
def c6db : DB := ⟨[], [], [c6order], []⟩

/-- The settlement payload of the concrete payment scenario. -/
def c6pinfo : PaymentInfo := ⟨"pay_key_1", "DONE", "카드", 43000, "raw"⟩

/-- Finding the first element satisfying a decidable predicate commutes
with mapping a function, applied only to satisfying elements, that does
not change which elements satisfy the predicate. -/
theorem find?_map_ite {α : Type} (P : α → Prop) [DecidablePred P] (f : α → α)
    (hf : ∀ x, P (f x) ↔ P x) (l : List α) :
    (l.map (fun x => if P x then f x else x)).find? (fun x => decide (P x)) =
      (l.find? (fun x => decide (P x))).map f := by
  induction l with
  | nil => simp
  | cons a l ih =>
    by_cases h : P a
    · rw [List.map_cons, if_pos h,
        List.find?_cons_of_pos _ (by simpa using (hf a).mpr h),
        List.find?_cons_of_pos _ (by simpa using h)]
      simp
    · rw [List.map_cons, if_neg h,
        List.find?_cons_of_neg _ (by simpa using h),
        List.find?_cons_of_neg _ (by simpa using h), ih]

/-- C8: every catalog read function returns an empty result rather than
raising when the underlying query fails, and returns an empty list when
the underlying data is empty (in particular, listing categories over an
empty product table yields the empty list). -/
theorem catalog_readers_degrade_to_empty (env : ReadEnv) (db : DB) (category : Option String)
    (sort : String) (page pageSize : Nat) :
    (env.productsQueryFails = true →
      getCategories env db = [] ∧ getPromotionalProducts env db = [] ∧
      getLatestProducts env db = [] ∧ getCollaborationProducts env db = [] ∧
      getPopularProducts env db = [] ∧
      getProducts env db category sort page pageSize = ([], 0)) ∧
    (env.orderItemsQueryFails = true → getPopularProducts env db = []) ∧
    (db.products = [] →
      getCategories env db = [] ∧ getPromotionalProducts env db = [] ∧
      getLatestProducts env db = [] ∧ getCollaborationProducts env db = [] ∧
      getProducts env db category sort page pageSize = ([], 0)) ∧
    (db.order_items = [] → getPopularProducts env db = []) := by
  obtain ⟨ptm, oitm, pqf, oiqf⟩ := env
  refine ⟨fun h => ?_, fun h => ?_, fun h => ?_, fun h => ?_⟩
  · simp only at h
    subst h
    refine ⟨?_, ?_, ?_, ?_, ?_, ?_⟩ <;>
      cases ptm <;> cases oitm <;> cases oiqf <;>
        simp [getCategories, getPromotionalProducts, getLatestProducts,
          getCollaborationProducts, getPopularProducts, getProducts]
  · simp only at h
    subst h
    cases ptm <;> cases oitm <;> cases pqf <;>
      simp [getPopularProducts]
  · refine ⟨?_, ?_, ?_, ?_, ?_⟩ <;>
      cases ptm <;> cases oitm <;> cases pqf <;> cases oiqf <;>
        simp [getCategories, getPromotionalProducts, getLatestProducts,
          getCollaborationProducts, getProducts, h, sortLe]
  · cases ptm <;> cases oitm <;> cases pqf <;> cases oiqf <;>
      simp [getPopularProducts, h]

/-- Witness for C8: over an empty store with failing queries, and over an
empty store with healthy queries, every reader yields the empty result. -/
theorem catalog_readers_degrade_to_empty_witness :
    getCategories ⟨false, false, true, true⟩ ⟨[], [], [], []⟩ = [] ∧
    getPopularProducts ⟨false, false, false, false⟩ ⟨[], [], [], []⟩ = [] ∧
    getCategories happyReadEnv ⟨[], [], [], []⟩ = [] :=
  ⟨(catalog_readers_degrade_to_empty ⟨false, false, true, true⟩ ⟨[], [], [], []⟩ none
      "newest" 1 12).1 rfl |>.1,
   (catalog_readers_degrade_to_empty ⟨false, false, false, false⟩ ⟨[], [], [], []⟩ none
      "newest" 1 12).2.2.2 rfl,
   (catalog_readers_degrade_to_empty happyReadEnv ⟨[], [], [], []⟩ none
      "newest" 1 12).2.2.1 rfl |>.1⟩

/-- C1: for every integer subtotal x, calculateShippingFee(x) returns 0 if
x >= 50000 and 3000 if 0 <= x < 50000; in particular
calculateShippingFee(49999) = 3000 and calculateShippingFee(50000) = 0. -/
theorem calculateShippingFee_spec (x : Int) :
    (50000 ≤ x → calculateShippingFee x = 0) ∧
    (0 ≤ x → x < 50000 → calculateShippingFee x = 3000) ∧
    calculateShippingFee 49999 = 3000 ∧ calculateShippingFee 50000 = 0 := by
  refine ⟨fun h => ?_, fun h1 h2 => ?_, by decide, by decide⟩
  · rw [calculateShippingFee, if_pos h]
  · rw [calculateShippingFee, if_neg (by omega)]

/-- Witness for C1 at the boundary inputs. -/
theorem calculateShippingFee_spec_witness :
    calculateShippingFee 50000 = 0 ∧ calculateShippingFee 49999 = 3000 :=
  ⟨(calculateShippingFee_spec 50000).1 (by decide),
   (calculateShippingFee_spec 49999).2.1 (by decide) (by decide)⟩

/-- C10: getCartCount never raises: it returns 0 for unauthenticated
callers, returns 0 when the count query fails, and returns 0 on an empty
cart, so a returned 0 does not distinguish an empty cart from a query
error. -/
theorem getCartCount_never_raises (env : CartCountEnv) (db : DB) :
    (env.authUserId = none → getCartCount env db = 0) ∧
    (env.countFails = true → getCartCount env db = 0) ∧
    (db.cart_items = [] → getCartCount env db = 0) := by
  obtain ⟨u, f⟩ := env
  refine ⟨fun h => ?_, fun h => ?_, fun h => ?_⟩
  · simp only at h
    subst h
    rfl
  · simp only at h
    subst h
    cases u <;> rfl
  · cases u with
    | none => rfl
    | some uid => cases f <;> simp [getCartCount, h]

/-- Witness for C10: an unauthenticated caller, a failing count query and
an empty cart all observe 0. -/
theorem getCartCount_never_raises_witness :
    getCartCount ⟨none, false⟩ ⟨[], [], [], []⟩ = 0 ∧
    getCartCount ⟨some "user_1", true⟩ ⟨[], [⟨1, "user_1", 1, 1, none⟩], [], []⟩ = 0 ∧
    getCartCount ⟨some "user_1", false⟩ ⟨[], [], [], []⟩ = 0 :=
  ⟨(getCartCount_never_raises ⟨none, false⟩ ⟨[], [], [], []⟩).1 rfl,
   (getCartCount_never_raises ⟨some "user_1", true⟩
      ⟨[], [⟨1, "user_1", 1, 1, none⟩], [], []⟩).2.1 rfl,
   (getCartCount_never_raises ⟨some "user_1", false⟩ ⟨[], [], [], []⟩).2.2 rfl⟩

/-- C9: if the admin allow-list variable is unset or empty, the caller is
unauthenticated, or the identity lookup throws, then isAdmin is false,
and every admin catalog operation fails with the authorization error and
leaves the store untouched. -/
theorem admin_allowlist_fails_closed (env : AdminEnv) (db : DB) (newProductId now : Nat)
    (cdata : CreateProductData) (udata : UpdateProductData) (pid : Nat) (hardDelete : Bool)
    (params : GetAdminProductsParams)
    (h : env.adminUserIdsString = none ∨ env.adminUserIdsString = some "" ∨
      env.authUserId = none ∨ env.authThrows = true) :
    isAdmin env = false ∧
    createProduct env db newProductId now cdata = (.error .unauthorized, db) ∧
    updateProduct env db udata = (.error .unauthorized, db) ∧
    deleteProduct env db pid hardDelete = (.error .unauthorized, db) ∧
    getAdminProducts env db params = .error .unauthorized ∧
    getProductById env db pid = .error .unauthorized := by
  have hadmin : isAdmin env = false := by
    obtain ⟨s, t, u, f⟩ := env
    simp only at h
    rcases h with h | h | h | h
    · subst h; cases t <;> cases u <;> simp [isAdmin, getAdminUserIds]
    · subst h; cases t <;> cases u <;> simp [isAdmin, getAdminUserIds]
    · subst h; cases t <;> simp [isAdmin]
    · subst h; simp [isAdmin]
  refine ⟨hadmin, ?_, ?_, ?_, ?_, ?_⟩ <;>
    simp [createProduct, updateProduct, deleteProduct, getAdminProducts, getProductById, hadmin]

/-- Witness for C9: with the allow-list variable unset, a signed-in caller
is still rejected by every admin operation. -/
theorem admin_allowlist_fails_closed_witness :
    isAdmin ⟨none, false, some "user_1", false⟩ = false ∧
    getProductById ⟨none, false, some "user_1", false⟩ ⟨[], [], [], []⟩ 7 =
      .error .unauthorized :=
  ⟨(admin_allowlist_fails_closed ⟨none, false, some "user_1", false⟩ ⟨[], [], [], []⟩ 0 0
      ⟨"", none, 0, none, 0, none, none, none, none, none⟩
      ⟨0, none, none, none, none, none, none, none, none, none, none⟩ 7 false
      ⟨none, none, none, none, none, none, none⟩ (Or.inl rfl)).1,
   (admin_allowlist_fails_closed ⟨none, false, some "user_1", false⟩ ⟨[], [], [], []⟩ 0 0
      ⟨"", none, 0, none, 0, none, none, none, none, none⟩
      ⟨0, none, none, none, none, none, none, none, none, none, none⟩ 7 false
      ⟨none, none, none, none, none, none, none⟩ (Or.inl rfl)).2.2.2.2.2⟩

/-- C6: calling updateOrderPayment twice with the same settlement for the
same order: the first call succeeds and sets payment status completed and
order status confirmed; the second call fails with the already-paid error
and performs no write, leaving the state exactly as the first call left
it. -/
theorem updateOrderPayment_double_settlement
    (env : PaymentEnv) (db : DB) (uid : String) (oid : Nat) (pinfo : PaymentInfo)
    (order : Order)
    (hfind : db.orders.find? (fun o => decide (o.id = oid ∧ o.clerk_id = uid)) = some order)
    (hnotpaid : order.payment_status ≠ "completed")
    (hamt : |pinfo.paymentDataTotalAmount - order.total_amount| ≤ 1)
    (henv : env.updateFails = false) :
    (updateOrderPayment env db (some uid) oid pinfo).1 = .ok () ∧
    (updateOrderPayment env db (some uid) oid pinfo).2.orders.find?
        (fun o => decide (o.id = oid ∧ o.clerk_id = uid)) =
      some (applyPayment pinfo order) ∧
    (applyPayment pinfo order).payment_status = "completed" ∧
    (applyPayment pinfo order).status = "confirmed" ∧
    updateOrderPayment env
        (updateOrderPayment env db (some uid) oid pinfo).2 (some uid) oid pinfo =
      (.error .alreadyPaid, (updateOrderPayment env db (some uid) oid pinfo).2) := by
  have h1 : updateOrderPayment env db (some uid) oid pinfo =
      (.ok (), { db with orders := db.orders.map (fun o =>
        if o.id = oid ∧ o.clerk_id = uid then applyPayment pinfo o else o) }) := by
    simp only [updateOrderPayment, hfind]
    rw [if_neg (not_lt.mpr hamt), if_neg hnotpaid, if_neg (by simp [henv])]
  have hfind1 : (db.orders.map (fun o =>
      if o.id = oid ∧ o.clerk_id = uid then applyPayment pinfo o else o)).find?
        (fun o => decide (o.id = oid ∧ o.clerk_id = uid)) =
      some (applyPayment pinfo order) := by
    rw [find?_map_ite (fun o : Order => o.id = oid ∧ o.clerk_id = uid) (applyPayment pinfo)
      (fun x => Iff.rfl), hfind]
    rfl
  have h2 : updateOrderPayment env
      { db with orders := db.orders.map (fun o =>
        if o.id = oid ∧ o.clerk_id = uid then applyPayment pinfo o else o) }
      (some uid) oid pinfo =
      (.error .alreadyPaid,
        { db with orders := db.orders.map (fun o =>
          if o.id = oid ∧ o.clerk_id = uid then applyPayment pinfo o else o) }) := by
    simp only [updateOrderPayment, hfind1]
    have hamt' : ¬ (|pinfo.paymentDataTotalAmount -
        (applyPayment pinfo order).total_amount| > 1) := not_lt.mpr hamt
    rw [if_neg hamt',
      if_pos (show (applyPayment pinfo order).payment_status = "completed" from rfl)]
  refine ⟨by rw [h1], ?_, rfl, rfl, ?_⟩
  · rw [h1]
    exact hfind1
  · rw [h1]
    exact h2

/-- Witness for C6: the concrete settlement applied twice to the concrete
pending order. -/
theorem updateOrderPayment_double_settlement_witness :
    (updateOrderPayment ⟨false⟩ c6db (some "user_1") 5 c6pinfo).1 = .ok () ∧
    updateOrderPayment ⟨false⟩
        (updateOrderPayment ⟨false⟩ c6db (some "user_1") 5 c6pinfo).2 (some "user_1") 5 c6pinfo =
      (.error .alreadyPaid, (updateOrderPayment ⟨false⟩ c6db (some "user_1") 5 c6pinfo).2) :=
  ⟨(updateOrderPayment_double_settlement ⟨false⟩ c6db "user_1" 5 c6pinfo c6order
      (by decide) (by decide) (by decide) rfl).1,
   (updateOrderPayment_double_settlement ⟨false⟩ c6db "user_1" 5 c6pinfo c6order
      (by decide) (by decide) (by decide) rfl).2.2.2.2⟩

/-- C4: for a product with stock 5 and price 20000 and a cart entry of
quantity 2, a successful createOrder yields an order with subtotal 40000,
shipping fee 3000 and total_amount 43000, leaves the product stock at 3,
and removes the consumed cart entry. -/
theorem createOrder_end_to_end_scenario :
    createOrder happyOrderEnv c4db (some "user_1") 100 c4data =
      (.ok 100,
        ⟨[{ c4product with stock_quantity := 3 }], [],
         [⟨100, "user_1", 43000, "pending", "서울시 강남구", none, none, none, "pending", none⟩],
         [⟨100, 1, "테스트 상품", 2, 20000, none⟩]⟩) ∧
    ((createOrder happyOrderEnv c4db (some "user_1") 100 c4data).2.order_items.map
        (fun it => it.price * it.quantity)).sum = 40000 ∧
    calculateShippingFee 40000 = 3000 ∧
    40000 + calculateShippingFee 40000 = 43000 :=
  ⟨rfl, rfl, rfl, rfl⟩

/-- The subtotal returned by validation is exactly the sum of snapshot
price times quantity over the accumulated line-item drafts. -/
theorem validateCartItems_sum (db : DB) (items : List CartItem) :
    ∀ (drafts : List OrderItemDraft) (subtotal : Int),
      validateCartItems db items = .ok (drafts, subtotal) →
      (drafts.map (fun d => d.price * d.quantity)).sum = subtotal := by
  induction items with
  | nil =>
    intro drafts subtotal h
    simp only [validateCartItems, Except.ok.injEq, Prod.mk.injEq] at h
    obtain ⟨rfl, rfl⟩ := h
    simp
  | cons c rest ih =>
    intro drafts subtotal h
    simp only [validateCartItems] at h
    split at h
    · simp at h
    · split at h
      · simp at h
      · split at h
        · simp at h
        · split at h
          · simp at h
          · rename_i p hne hle ds st hrec
            simp only [Except.ok.injEq, Prod.mk.injEq] at h
            obtain ⟨rfl, rfl⟩ := h
            simp only [List.map_cons, List.sum_cons]
            rw [ih ds st hrec]

/-- When the write phase of createOrder succeeds, the returned id is the
new order id, the order header carries the computed final total, and the
line items of the new order are exactly the validated drafts. -/
theorem createOrderWrite_ok (env : OrderEnv) (db : DB) (userId : String) (newOrderId : Nat)
    (data : CreateOrderData) (orderItems : List OrderItemDraft) (finalTotal : Int)
    (oid : Nat) (db' : DB)
    (h : createOrderWrite env db userId newOrderId data orderItems finalTotal = (.ok oid, db')) :
    oid = newOrderId ∧
    db'.orders = db.orders ++
      [⟨newOrderId, userId, finalTotal, "pending", data.shippingAddress, data.orderNote,
        none, none, "pending", none⟩] ∧
    db'.order_items = db.order_items ++ orderItems.map (fun it =>
      ⟨newOrderId, it.productId, it.productName, it.quantity, it.price, it.options⟩) := by
  simp only [createOrderWrite] at h
  split at h
  · simp at h
  · split at h
    · simp at h
    · split at h
      · simp at h
      · split at h
        · simp only [Prod.mk.injEq, Except.ok.injEq] at h
          obtain ⟨rfl, rfl⟩ := h
          exact ⟨rfl, rfl, rfl⟩
        · simp only [Prod.mk.injEq, Except.ok.injEq] at h
          obtain ⟨rfl, rfl⟩ := h
          exact ⟨rfl, rfl, rfl⟩

/-- C2: for every successful createOrder, the total_amount written to the
order header equals the sum over its line items of snapshot price times
quantity, plus calculateShippingFee of that sum, exactly. -/
theorem createOrder_totalAmount_spec (env : OrderEnv) (db : DB) (authUserId : Option String)
    (newOrderId : Nat) (data : CreateOrderData) (oid : Nat) (db' : DB)
    (hrun : createOrder env db authUserId newOrderId data = (.ok oid, db'))
    (hfreshItems : ∀ it ∈ db.order_items, it.order_id ≠ newOrderId) :
    ∃ order ∈ db'.orders, order.id = newOrderId ∧
      order.total_amount =
        ((db'.order_items.filter (fun it => decide (it.order_id = newOrderId))).map
          (fun it => it.price * it.quantity)).sum +
        calculateShippingFee
          ((db'.order_items.filter (fun it => decide (it.order_id = newOrderId))).map
            (fun it => it.price * it.quantity)).sum := by
  cases authUserId with
  | none => simp [createOrder] at hrun
  | some uid =>
    simp only [createOrder] at hrun
    split at hrun
    · simp at hrun
    · split at hrun
      · simp at hrun
      · split at hrun
        · simp at hrun
        · split at hrun
          · simp at hrun
          · rename_i orderItems totalAmount hval
            split at hrun
            · simp at hrun
            · obtain ⟨rfl, horders, hitems⟩ :=
                createOrderWrite_ok _ _ _ _ _ _ _ _ _ hrun
              have hfil : db'.order_items.filter (fun it => decide (it.order_id = oid)) =
                  orderItems.map (fun it =>
                    ⟨oid, it.productId, it.productName, it.quantity, it.price, it.options⟩) := by
                rw [hitems, List.filter_append]
                have h1 : db.order_items.filter (fun it => decide (it.order_id = oid)) = [] := by
                  rw [List.filter_eq_nil_iff]
                  intro a ha
                  simpa using hfreshItems a ha
                have h2 : (orderItems.map (fun it =>
                    (⟨oid, it.productId, it.productName, it.quantity, it.price,
                      it.options⟩ : OrderItem))).filter
                      (fun it => decide (it.order_id = oid)) =
                    orderItems.map (fun it =>
                      ⟨oid, it.productId, it.productName, it.quantity, it.price,
                        it.options⟩) := by
                  rw [List.filter_eq_self]
                  intro a ha
                  obtain ⟨d, hd, rfl⟩ := List.mem_map.mp ha
                  simp
                rw [h1, h2, List.nil_append]
              have hsum : ((db'.order_items.filter (fun it =>
                  decide (it.order_id = oid))).map (fun it => it.price * it.quantity)).sum =
                  totalAmount := by
                rw [hfil, List.map_map]
                exact validateCartItems_sum db _ orderItems totalAmount hval
              refine ⟨⟨oid, uid, totalAmount + calculateShippingFee totalAmount, "pending",
                data.shippingAddress, data.orderNote, none, none, "pending", none⟩, ?_, rfl, ?_⟩
              · rw [horders]
                exact List.mem_append_right _ (List.mem_singleton.mpr rfl)
              · rw [hsum]

/-- Witness for C2: the concrete order scenario instantiates the theorem. -/
theorem createOrder_totalAmount_spec_witness :
    ∃ order ∈ (createOrder happyOrderEnv c4db (some "user_1") 100 c4data).2.orders,
      order.id = 100 ∧
      order.total_amount =
        (((createOrder happyOrderEnv c4db (some "user_1") 100 c4data).2.order_items.filter
          (fun it => decide (it.order_id = 100))).map
          (fun it => it.price * it.quantity)).sum +
        calculateShippingFee
          ((((createOrder happyOrderEnv c4db (some "user_1") 100 c4data).2.order_items.filter
            (fun it => decide (it.order_id = 100))).map
            (fun it => it.price * it.quantity)).sum) :=
  createOrder_totalAmount_spec happyOrderEnv c4db (some "user_1") 100 c4data 100
    (createOrder happyOrderEnv c4db (some "user_1") 100 c4data).2 rfl (by decide)

/-- C5: for a product and a fixed serialized option set, calling addToCart
twice with quantities q1 then q2 yields exactly one cart entry for the
(owner, product, options) key holding q1 + q2 when q1 + q2 is within
stock; when q1 + q2 exceeds stock the second call fails with the
insufficient-stock error and the entry keeps quantity q1. -/
theorem addToCart_merge_spec (db : DB) (uid : String) (pid newId1 newId2 : Nat)
    (opts : Option String) (product : Product) (q1 q2 : Int)
    (hp : findProduct db pid = some product)
    (hactive : product.is_active = true)
    (hstatus : product.status ≠ "hidden")
    (hnoexist : ∀ c ∈ db.cart_items,
      ¬ (c.clerk_id = uid ∧ c.product_id = pid ∧ c.options = opts))
    (hfresh : ∀ c ∈ db.cart_items, c.id ≠ newId1)
    (hq1 : 1 ≤ q1) (hq2 : 1 ≤ q2) (hq1s : q1 ≤ product.stock_quantity) :
    (addToCart happyCartEnv db (some uid) newId1 ⟨pid, q1, opts⟩).1 =
      .ok ⟨newId1, uid, pid, q1, opts⟩ ∧
    ((addToCart happyCartEnv db (some uid) newId1 ⟨pid, q1, opts⟩).2.cart_items.filter
      (fun c => decide (c.clerk_id = uid ∧ c.product_id = pid ∧ c.options = opts))).map
        (fun c => c.quantity) = [q1] ∧
    (q1 + q2 ≤ product.stock_quantity →
      (addToCart happyCartEnv (addToCart happyCartEnv db (some uid) newId1 ⟨pid, q1, opts⟩).2
          (some uid) newId2 ⟨pid, q2, opts⟩).1 = .ok ⟨newId1, uid, pid, q1 + q2, opts⟩ ∧
      (((addToCart happyCartEnv (addToCart happyCartEnv db (some uid) newId1 ⟨pid, q1, opts⟩).2
          (some uid) newId2 ⟨pid, q2, opts⟩).2.cart_items.filter
        (fun c => decide (c.clerk_id = uid ∧ c.product_id = pid ∧ c.options = opts))).map
          (fun c => c.quantity) = [q1 + q2])) ∧
    (product.stock_quantity < q1 + q2 →
      (addToCart happyCartEnv (addToCart happyCartEnv db (some uid) newId1 ⟨pid, q1, opts⟩).2
          (some uid) newId2 ⟨pid, q2, opts⟩).1 = .error .insufficientStock ∧
      (addToCart happyCartEnv (addToCart happyCartEnv db (some uid) newId1 ⟨pid, q1, opts⟩).2
          (some uid) newId2 ⟨pid, q2, opts⟩).2 =
        (addToCart happyCartEnv db (some uid) newId1 ⟨pid, q1, opts⟩).2 ∧
      (((addToCart happyCartEnv (addToCart happyCartEnv db (some uid) newId1 ⟨pid, q1, opts⟩).2
          (some uid) newId2 ⟨pid, q2, opts⟩).2.cart_items.filter
        (fun c => decide (c.clerk_id = uid ∧ c.product_id = pid ∧ c.options = opts))).map
          (fun c => c.quantity) = [q1])) := by
  have hstock0 : ¬ product.stock_quantity = 0 := by omega
  have hq1gt : ¬ q1 > product.stock_quantity := by omega
  have hfind0 : db.cart_items.find? (fun c =>
      decide (c.clerk_id = uid ∧ c.product_id = pid ∧ c.options = opts)) = none :=
    List.find?_eq_none.mpr (fun c hc => by simpa using hnoexist c hc)
  have hfind0b : db.cart_items.find? (fun c =>
      decide (c.clerk_id = uid) && (decide (c.product_id = pid) &&
        decide (c.options = opts))) = none := by
    have h := hfind0
    simp only [Bool.decide_and] at h
    exact h
  have h1 : addToCart happyCartEnv db (some uid) newId1 ⟨pid, q1, opts⟩ =
      (.ok ⟨newId1, uid, pid, q1, opts⟩,
        { db with cart_items := db.cart_items ++ [⟨newId1, uid, pid, q1, opts⟩] }) := by
    simp [addToCart, happyCartEnv, hp, hfind0b, hactive, hstatus, hstock0, hq1gt]
  have hfilter0 : db.cart_items.filter (fun c =>
      decide (c.clerk_id = uid ∧ c.product_id = pid ∧ c.options = opts)) = [] :=
    List.filter_eq_nil_iff.mpr (fun c hc => by simpa using hnoexist c hc)
  have hfilter1 : ((db.cart_items ++ [(⟨newId1, uid, pid, q1, opts⟩ : CartItem)]).filter
      (fun c => decide (c.clerk_id = uid ∧ c.product_id = pid ∧ c.options = opts))) =
      [⟨newId1, uid, pid, q1, opts⟩] := by
    rw [List.filter_append, hfilter0, List.nil_append]
    simp
  have hp1 : findProduct
      { db with cart_items := db.cart_items ++ [(⟨newId1, uid, pid, q1, opts⟩ : CartItem)] }
      pid = some product := hp
  have hfind1 : (db.cart_items ++ [(⟨newId1, uid, pid, q1, opts⟩ : CartItem)]).find?
      (fun c => decide (c.clerk_id = uid ∧ c.product_id = pid ∧ c.options = opts)) =
      some ⟨newId1, uid, pid, q1, opts⟩ := by
    rw [List.find?_append, hfind0]
    simp
  have hfind1b : (db.cart_items ++ [(⟨newId1, uid, pid, q1, opts⟩ : CartItem)]).find?
      (fun c => decide (c.clerk_id = uid) && (decide (c.product_id = pid) &&
        decide (c.options = opts))) = some ⟨newId1, uid, pid, q1, opts⟩ := by
    have h := hfind1
    simp only [Bool.decide_and] at h
    exact h
  refine ⟨by rw [h1], ?_, fun hle => ?_, fun hgt => ?_⟩
  · rw [h1]
    show ((db.cart_items ++ [(⟨newId1, uid, pid, q1, opts⟩ : CartItem)]).filter
      (fun c => decide (c.clerk_id = uid ∧ c.product_id = pid ∧ c.options = opts))).map
        (fun c => c.quantity) = [q1]
    rw [hfilter1]
    rfl
  · have hq12gt : ¬ q1 + q2 > product.stock_quantity := by omega
    have h2 : addToCart happyCartEnv
        { db with cart_items := db.cart_items ++ [(⟨newId1, uid, pid, q1, opts⟩ : CartItem)] }
        (some uid) newId2 ⟨pid, q2, opts⟩ =
        (.ok ⟨newId1, uid, pid, q1 + q2, opts⟩,
          { db with cart_items :=
              (db.cart_items ++ [(⟨newId1, uid, pid, q1, opts⟩ : CartItem)]).map (fun c =>
                if c.id = newId1 then { c with quantity := q1 + q2 } else c) }) := by
      simp [addToCart, happyCartEnv, hp1, hfind1b, hactive, hstatus, hstock0, hq12gt]
    have hmap : (db.cart_items ++ [(⟨newId1, uid, pid, q1, opts⟩ : CartItem)]).map (fun c =>
        if c.id = newId1 then { c with quantity := q1 + q2 } else c) =
        db.cart_items ++ [⟨newId1, uid, pid, q1 + q2, opts⟩] := by
      rw [List.map_append]
      congr 1
      · exact (List.map_congr_left (fun c hc =>
          if_neg (fun h => hfresh c hc h))).trans (List.map_id _)
      · simp
    have hfilter2 : ((db.cart_items ++ [(⟨newId1, uid, pid, q1 + q2, opts⟩ : CartItem)]).filter
        (fun c => decide (c.clerk_id = uid ∧ c.product_id = pid ∧ c.options = opts))) =
        [⟨newId1, uid, pid, q1 + q2, opts⟩] := by
      rw [List.filter_append, hfilter0, List.nil_append]
      simp
    rw [h1]
    show (addToCart happyCartEnv
        { db with cart_items := db.cart_items ++ [(⟨newId1, uid, pid, q1, opts⟩ : CartItem)] }
        (some uid) newId2 ⟨pid, q2, opts⟩).1 = .ok ⟨newId1, uid, pid, q1 + q2, opts⟩ ∧
      ((addToCart happyCartEnv
        { db with cart_items := db.cart_items ++ [(⟨newId1, uid, pid, q1, opts⟩ : CartItem)] }
        (some uid) newId2 ⟨pid, q2, opts⟩).2.cart_items.filter
        (fun c => decide (c.clerk_id = uid ∧ c.product_id = pid ∧ c.options = opts))).map
          (fun c => c.quantity) = [q1 + q2]
    rw [h2]
    constructor
    · rfl
    · show (((db.cart_items ++ [(⟨newId1, uid, pid, q1, opts⟩ : CartItem)]).map (fun c =>
          if c.id = newId1 then { c with quantity := q1 + q2 } else c)).filter
          (fun c => decide (c.clerk_id = uid ∧ c.product_id = pid ∧ c.options = opts))).map
            (fun c => c.quantity) = [q1 + q2]
      rw [hmap, hfilter2]
      rfl
  · have hq12gt : q1 + q2 > product.stock_quantity := by omega
    have h2 : addToCart happyCartEnv
        { db with cart_items := db.cart_items ++ [(⟨newId1, uid, pid, q1, opts⟩ : CartItem)] }
        (some uid) newId2 ⟨pid, q2, opts⟩ =
        (.error .insufficientStock,
          { db with cart_items := db.cart_items ++
            [(⟨newId1, uid, pid, q1, opts⟩ : CartItem)] }) := by
      simp [addToCart, happyCartEnv, hp1, hfind1b, hactive, hstatus, hstock0, hq12gt]
    rw [h1]
    show (addToCart happyCartEnv
        { db with cart_items := db.cart_items ++ [(⟨newId1, uid, pid, q1, opts⟩ : CartItem)] }
        (some uid) newId2 ⟨pid, q2, opts⟩).1 = .error .insufficientStock ∧
      (addToCart happyCartEnv
        { db with cart_items := db.cart_items ++ [(⟨newId1, uid, pid, q1, opts⟩ : CartItem)] }
        (some uid) newId2 ⟨pid, q2, opts⟩).2 =
        { db with cart_items := db.cart_items ++ [(⟨newId1, uid, pid, q1, opts⟩ : CartItem)] } ∧
      ((addToCart happyCartEnv
        { db with cart_items := db.cart_items ++ [(⟨newId1, uid, pid, q1, opts⟩ : CartItem)] }
        (some uid) newId2 ⟨pid, q2, opts⟩).2.cart_items.filter
        (fun c => decide (c.clerk_id = uid ∧ c.product_id = pid ∧ c.options = opts))).map
          (fun c => c.quantity) = [q1]
    rw [h2]
    refine ⟨rfl, rfl, ?_⟩
    show ((db.cart_items ++ [(⟨newId1, uid, pid, q1, opts⟩ : CartItem)]).filter
      (fun c => decide (c.clerk_id = uid ∧ c.product_id = pid ∧ c.options = opts))).map
        (fun c => c.quantity) = [q1]
    rw [hfilter1]
    rfl

/-- Witness for C5: a concrete product with stock 5, adding quantities 2
then 3 merges into one entry of 5; the insufficient branch is exercised
by the theorem with quantities 3 and 3. -/
theorem addToCart_merge_spec_witness :
    ((addToCart happyCartEnv ⟨[c4product], [], [], []⟩ (some "user_1") 20
        ⟨1, 2, none⟩).1 = .ok ⟨20, "user_1", 1, 2, none⟩) ∧
    (((addToCart happyCartEnv
        (addToCart happyCartEnv ⟨[c4product], [], [], []⟩ (some "user_1") 20 ⟨1, 2, none⟩).2
        (some "user_1") 21 ⟨1, 3, none⟩).2.cart_items.filter
      (fun c => decide (c.clerk_id = "user_1" ∧ c.product_id = 1 ∧ c.options = none))).map
        (fun c => c.quantity) = [2 + 3]) :=
  ⟨(addToCart_merge_spec ⟨[c4product], [], [], []⟩ "user_1" 1 20 21 none c4product 2 3
      rfl rfl (by decide) (by decide) (by decide) (by decide) (by decide) (by decide)).1,
   ((addToCart_merge_spec ⟨[c4product], [], [], []⟩ "user_1" 1 20 21 none c4product 2 3
      rfl rfl (by decide) (by decide) (by decide) (by decide) (by decide)
      (by decide)).2.2.1 (by decide)).2⟩

/-- When a requested id has no cart row owned by the caller, the scoped
fetch returns strictly fewer rows than were requested. -/
theorem fetchCartItems_length_lt (db : DB) (uid : String) (ids : List Nat)
    (hnodup : (db.cart_items.map (fun c => c.id)).Nodup)
    (bad : Nat) (hbad : bad ∈ ids)
    (hnot : ∀ c ∈ db.cart_items, c.id = bad → c.clerk_id ≠ uid) :
    (fetchCartItems db uid ids).length < ids.length := by
  classical
  have hsub : (fetchCartItems db uid ids).Sublist db.cart_items := List.filter_sublist _
  have hlnodup : ((fetchCartItems db uid ids).map (fun c => c.id)).Nodup :=
    (hsub.map (fun c => c.id)).nodup hnodup
  have hmem : ∀ x ∈ (fetchCartItems db uid ids).map (fun c => c.id),
      x ∈ ids.toFinset.erase bad := by
    intro x hx
    obtain ⟨c, hc, rfl⟩ := List.mem_map.mp hx
    have hcl : c ∈ db.cart_items := (List.mem_filter.mp hc).1
    have hcprop : c.clerk_id = uid ∧ c.id ∈ ids := by
      have := (List.mem_filter.mp hc).2
      simpa using this
    refine Finset.mem_erase.mpr ⟨?_, List.mem_toFinset.mpr hcprop.2⟩
    intro hbadid
    exact hnot c hcl hbadid hcprop.1
  calc (fetchCartItems db uid ids).length
      = ((fetchCartItems db uid ids).map (fun c => c.id)).toFinset.card := by
        rw [List.toFinset_card_of_nodup hlnodup, List.length_map]
    _ ≤ (ids.toFinset.erase bad).card :=
        Finset.card_le_card (fun x hx => hmem x (List.mem_toFinset.mp hx))
    _ < ids.toFinset.card := Finset.card_erase_lt_of_mem (List.mem_toFinset.mpr hbad)
    _ ≤ ids.length := List.toFinset_card_le ids

/-- When every line's product passes the availability checks but some
line's quantity exceeds its product's stock, validation reports the
insufficient-stock error. -/
theorem validateCartItems_insufficientStock (db : DB) (items : List CartItem)
    (hall : ∀ c ∈ items, ∃ p, findProduct db c.product_id = some p ∧
      p.is_active = true ∧ p.status ≠ "hidden")
    (hex : ∃ c ∈ items, ∀ p, findProduct db c.product_id = some p →
      p.stock_quantity < c.quantity) :
    ∃ name, validateCartItems db items = .error (.insufficientStock name) := by
  induction items with
  | nil =>
    obtain ⟨c, hc, _⟩ := hex
    exact absurd hc (List.not_mem_nil c)
  | cons c rest ih =>
    obtain ⟨p, hp, hact, hstat⟩ := hall c (List.mem_cons_self c rest)
    by_cases hq : c.quantity > p.stock_quantity
    · refine ⟨p.name, ?_⟩
      simp only [validateCartItems, hp]
      rw [if_neg (by simp [hact, hstat]), if_pos hq]
    · obtain ⟨c', hc', hstock⟩ := hex
      have hc'rest : c' ∈ rest := by
        rcases List.mem_cons.mp hc' with h | h
        · subst h
          exact absurd (hstock p hp) (by omega)
        · exact h
      obtain ⟨name, hname⟩ :=
        ih (fun d hd => hall d (List.mem_cons_of_mem c hd)) ⟨c', hc'rest, hstock⟩
      refine ⟨name, ?_⟩
      simp only [validateCartItems, hp]
      rw [if_neg (by simp [hact, hstat]), if_neg hq, hname]

/-- C3: when createOrder fails during validation — an id not found or not
owned by the caller, or a line whose product lacks stock — it fails with
the corresponding error and performs no write at all: the store is
returned unchanged. -/
theorem createOrder_validation_no_writes (env : OrderEnv) (db : DB) (uid : String)
    (ids : List Nat) (addr : String) (note : Option String) (newOrderId : Nat)
    (hnodup : (db.cart_items.map (fun c => c.id)).Nodup)
    (henv : env.cartQueryFails = false) :
    ((∃ bad ∈ ids, ∀ c ∈ db.cart_items, c.id = bad → c.clerk_id ≠ uid) →
      ∃ e, (e = OrderError.cartNotFound ∨ e = OrderError.cartMismatch) ∧
        createOrder env db (some uid) newOrderId ⟨ids, addr, note⟩ = (.error e, db)) ∧
    ((fetchCartItems db uid ids).length = ids.length →
     (fetchCartItems db uid ids).length ≠ 0 →
     (∀ c ∈ fetchCartItems db uid ids, ∃ p, findProduct db c.product_id = some p ∧
        p.is_active = true ∧ p.status ≠ "hidden") →
     (∃ c ∈ fetchCartItems db uid ids, ∀ p, findProduct db c.product_id = some p →
        p.stock_quantity < c.quantity) →
      ∃ name, createOrder env db (some uid) newOrderId ⟨ids, addr, note⟩ =
        (.error (.insufficientStock name), db)) := by
  constructor
  · rintro ⟨bad, hbad, hnot⟩
    have hlt := fetchCartItems_length_lt db uid ids hnodup bad hbad hnot
    by_cases h0 : (fetchCartItems db uid ids).length = 0
    · exact ⟨.cartNotFound, Or.inl rfl, by simp [createOrder, henv, h0]⟩
    · have hne : (fetchCartItems db uid ids).length ≠ ids.length := by omega
      exact ⟨.cartMismatch, Or.inr rfl, by simp [createOrder, henv, h0, hne]⟩
  · intro hlen h0 hall hex
    obtain ⟨name, hname⟩ := validateCartItems_insufficientStock db _ hall hex
    refine ⟨name, ?_⟩
    have hids : ¬ ids = [] := by
      intro h
      subst h
      simp at hlen
      exact h0 (by rw [hlen]; rfl)
    simp [createOrder, henv, h0, hlen, hname, hids]

/-- Witness for C3: a request naming a foreign cart entry fails without
writes, and a request for a sold-out product fails with insufficient
stock without writes. -/
theorem createOrder_validation_no_writes_witness :
    (∃ e, (e = OrderError.cartNotFound ∨ e = OrderError.cartMismatch) ∧
      createOrder happyOrderEnv c3adb (some "user_1") 200 ⟨[10], "주소", none⟩ =
        (.error e, c3adb)) ∧
    (∃ name, createOrder happyOrderEnv c3bdb (some "user_1") 201 ⟨[11], "주소", none⟩ =
      (.error (.insufficientStock name), c3bdb)) :=
  ⟨(createOrder_validation_no_writes happyOrderEnv c3adb "user_1" [10] "주소" none 200
      (by decide) rfl).1 ⟨10, by decide, by decide⟩,
   (createOrder_validation_no_writes happyOrderEnv c3bdb "user_1" [11] "주소" none 201
      (by decide) rfl).2 (by decide) (by decide)
      (by
        intro c hc
        have hceq : c = c3bCart := by
          simpa [fetchCartItems, c3bdb, c3bCart] using hc
        subst hceq
        exact ⟨c3bProduct, rfl, rfl, by decide⟩)
      ⟨c3bCart, by simp [fetchCartItems, c3bdb, c3bCart], fun p hp => by
        have hpe : p = c3bProduct := by
          have h0 : findProduct c3bdb c3bCart.product_id = some c3bProduct := rfl
          rw [h0] at hp
          exact (Option.some.injEq _ _).mp hp.symm
        subst hpe
        decide⟩⟩

/-- When the decrement loop succeeds on a prefix and the next line's
decrement fails, the whole loop stops with that error and reports the
products as decremented by the prefix only. -/
theorem decrementLoop_partial (env : OrderEnv) :
    ∀ (pre : List OrderItemDraft) (ps ps' : List Product) (d : OrderItemDraft)
      (post : List OrderItemDraft) (e : OrderError),
      decrementLoop env ps pre = (none, ps') →
      decrementStep env ps' d = .error e →
      decrementLoop env ps (pre ++ d :: post) = (some e, ps') := by
  intro pre
  induction pre with
  | nil =>
    intro ps ps' d post e hloop hstep
    simp only [decrementLoop, Prod.mk.injEq] at hloop
    obtain ⟨-, rfl⟩ := hloop
    simp only [List.nil_append, decrementLoop, hstep]
  | cons a pre ih =>
    intro ps ps' d post e hloop hstep
    simp only [decrementLoop] at hloop
    split at hloop
    · simp at hloop
    · rename_i ps1 heq
      simp only [List.cons_append, decrementLoop, heq]
      exact ih ps1 ps' d post e hloop hstep

/-- C7: if, during the stock-decrement loop of createOrder, the decrement
of some line fails after earlier lines already decremented, the order
header and line items are deleted (compensation) but the decrements of
the earlier lines are not reversed: the final store keeps the partially
decremented products, and cart entries are untouched. -/
theorem createOrder_partial_decrement_not_reversed (env : OrderEnv) (db : DB) (uid : String)
    (ids : List Nat) (addr : String) (note : Option String) (newOrderId : Nat)
    (drafts : List OrderItemDraft) (subtotal : Int)
    (pre : List OrderItemDraft) (d : OrderItemDraft) (post : List OrderItemDraft)
    (ps' : List Product) (e : OrderError)
    (henvc : env.cartQueryFails = false)
    (henvo : env.orderInsertFails = false)
    (henvi : env.itemsInsertFails = false)
    (h0 : (fetchCartItems db uid ids).length ≠ 0)
    (hlen : (fetchCartItems db uid ids).length = ids.length)
    (hval : validateCartItems db (fetchCartItems db uid ids) = .ok (drafts, subtotal))
    (hdrafts : drafts = pre ++ d :: post)
    (hpos : 0 < subtotal + calculateShippingFee subtotal)
    (hloop : decrementLoop env db.products pre = (none, ps'))
    (hstep : decrementStep env ps' d = .error e)
    (hfreshO : ∀ o ∈ db.orders, o.id ≠ newOrderId)
    (hfreshI : ∀ it ∈ db.order_items, it.order_id ≠ newOrderId) :
    createOrder env db (some uid) newOrderId ⟨ids, addr, note⟩ =
      (.error e, { db with products := ps' }) := by
  have hloop' : decrementLoop env db.products drafts = (some e, ps') := by
    rw [hdrafts]
    exact decrementLoop_partial env pre db.products ps' d post e hloop hstep
  have hnpos : ¬ (subtotal + calculateShippingFee subtotal ≤ 0) := not_le.mpr hpos
  have hwrite : createOrderWrite env db uid newOrderId ⟨ids, addr, note⟩ drafts
      (subtotal + calculateShippingFee subtotal) = (.error e, { db with products := ps' }) := by
    simp only [createOrderWrite, henvo, henvi]
    simp only [Bool.false_eq_true, if_false]
    simp only [hloop']
    simp
    refine ⟨fun a ha => hfreshO a ha, ?_⟩
    rw [List.filter_eq_self.mpr (fun it hit => by simpa using hfreshI it hit),
      List.filter_eq_nil_iff.mpr (fun a ha => by
        obtain ⟨dd, hdd, rfl⟩ := List.mem_map.mp ha
        simp),
      List.append_nil]
  have hids : ¬ ids = [] := by
    intro h
    subst h
    simp at hlen
    exact h0 (by rw [hlen]; rfl)
  simp [createOrder, henvc, h0, hlen, hids, hval, hnpos, hwrite]

/-- Witness for C7: two lines over two products; the first line's stock
is decremented to 3, the second line's update fails, the order and its
lines are rolled back, the cart survives, and the first product keeps its
reduced stock. -/
theorem createOrder_partial_decrement_not_reversed_witness :
    createOrder c7env c7db (some "user_1") 300 ⟨[30, 31], "주소", none⟩ =
      (.error (.stockUpdateFailed 2),
        { c7db with products := [{ c7p1 with stock_quantity := 3 }, c7p2] }) :=
  createOrder_partial_decrement_not_reversed c7env c7db "user_1" [30, 31] "주소" none 300
    [⟨1, "상품 A", 2, 10000, none⟩, ⟨2, "상품 B", 1, 20000, none⟩] 40000
    [⟨1, "상품 A", 2, 10000, none⟩] ⟨2, "상품 B", 1, 20000, none⟩ []
    [{ c7p1 with stock_quantity := 3 }, c7p2] (.stockUpdateFailed 2)
    rfl rfl rfl (by decide) (by decide) rfl rfl (by decide) rfl rfl
    (by decide) (by decide)

end Shop
